import Mathlib

/-!
Verification of the RFID reader core (`src/rfid.py`): frame building,
frame decoding, the inventory-session poll loops, the command retry
channel, reconnection and tag-memory writes, shallowly embedded in Lean.

Bytes are modelled as `Nat` (with explicit `% 2^8` / `/ 2^8` where the
Python code uses `& 0xFF` / `>> 8`), byte buffers as `List Nat`, and a
Python function that can raise is embedded as a function into `PyResult`.
The `timestamp` field of a parsed tag (wall-clock capture time) carries
no protocol information and is omitted from the embedding.
-/

namespace RFID

/-- Result of running a Python fragment: normal value or a raised exception
(identified by its exception class name). -/
inductive PyResult (α : Type) where
  | ok : α → PyResult α
  | exn : String → PyResult α
deriving DecidableEq

/-- Upper-case hex digit for a nibble, as produced by `bytes.hex().upper()`:
0-9 map to '0'-'9' (codepoint 48+n), 10-15 to 'A'-'F' (codepoint 55+n). -/
def hexDigit (n : Nat) : Char :=
  if n < 10 then Char.ofNat (48 + n) else Char.ofNat (55 + n)

/-- Two upper-case hex characters of one byte, high nibble first. -/
def byteHex (b : Nat) : String :=
  String.mk [hexDigit (b / 16), hexDigit (b % 16)]

/-- `bs.hex().upper()` for a byte sequence. -/
def bytesHex (bs : List Nat) : String :=
  String.join (bs.map byteHex)

/-- `FrameBuilder.build(cmd_type, cmd_code, payload)`:
`[0xBB, cmd_type, cmd_code, length >> 8, length & 0xFF] ++ payload`,
then append `sum(frame[1:]) & 0xFF` and `0x7E`. -/
def build (cmd_type cmd_code : Nat) (payload : List Nat) : List Nat :=
  let length := payload.length
  let frame := [0xBB, cmd_type, cmd_code, length / 2 ^ 8, length % 2 ^ 8] ++ payload
  let checksum := (frame.drop 1).sum % 2 ^ 8
  frame ++ [checksum, 0x7E]

/-- One decoded tag observation, as built by `parse_tag_frame`
(hex strings exactly as Python's `.hex().upper()`; RSSI is the signed
transform `-(256 - rawByte)`; the wall-clock timestamp is omitted). -/
structure TagRecord where
  epc : String
  rssi : Int
  pc : String
  crc : String
deriving DecidableEq

/-- `RFIDReader.parse_tag_frame(frame)`: returns `None` unless the buffer
starts with `BB 02 22`; otherwise reads `frame[6]` (raising `IndexError`
when the buffer is shorter than 7 bytes) and the slices `frame[7:9]`,
`frame[9:21]`, `frame[21:23]` (slices never raise). -/
def parse_tag_frame (frame : List Nat) : PyResult (Option TagRecord) :=
  if frame.take 3 ≠ [0xBB, 0x02, 0x22] then
    PyResult.ok none
  else if 6 < frame.length then
    PyResult.ok (some
      { epc := bytesHex ((frame.drop 9).take 12)
        rssi := -(256 - (frame.getD 6 0 : Int))
        pc := bytesHex ((frame.drop 7).take 2)
        crc := bytesHex ((frame.drop 21).take 2) })
  else
    PyResult.exn "IndexError"

/-- `RFIDReader.parse_error_frame(frame)`: if the buffer is nonempty and
starts with `BB 01 FF` it reads `frame[5]` (raising `IndexError` when the
buffer is shorter than 6 bytes) and logs that error code; otherwise it does
nothing. The logged code is the observable outcome, so the embedding
returns it. -/
def parse_error_frame (frame : List Nat) : PyResult (Option Nat) :=
  if frame ≠ [] ∧ frame.take 3 = [0xBB, 0x01, 0xFF] then
    if 5 < frame.length then PyResult.ok (some (frame.getD 5 0))
    else PyResult.exn "IndexError"
  else
    PyResult.ok none

/-- Modelled from the spec: `decodeGenericFrame` (spec sections 2, 3 and 8)
is not part of `src/rfid.py`; it validates the start byte `0xBB`, the end
byte `0x7E`, the big-endian declared payload length, and the checksum
`sum(cmdType..payload) mod 256`, and recovers
`(commandType, commandCode, payload)`. -/
def decodeGenericFrame (buf : List Nat) : Option (Nat × Nat × List Nat) :=
  match buf with
  | start :: t :: c :: hi :: lo :: rest =>
    let len := hi * 2 ^ 8 + lo
    if start = 0xBB ∧ rest.length = len + 2 then
      let payload := rest.take len
      let chk := (rest.drop len).getD 0 0
      let endByte := (rest.drop (len + 1)).getD 0 0
      if endByte = 0x7E ∧ chk = (t + c + hi + lo + payload.sum) % 2 ^ 8 then
        some (t, c, payload)
      else none
    else none
  | _ => none

/-- The mutable reader state threaded through an inventory loop:
`epc_seen` (the Python instance attribute `self.epc_seen`, a set used only
for membership, created once in `__init__` and never cleared), the
`retries` counter of `read_multiple_tags`, and the list of tag records
handed to the emission sinks (`log_tag` / `send_to_api` / `print`). -/
structure SessState where
  epcSeen : List String
  retries : Nat
  emitted : List TagRecord
deriving DecidableEq

/-- One poll iteration's input in `read_multiple_tags`: the buffer returned
by `self.ser.read(64)`, or a read that raises (there is no exception
handler inside this loop). -/
inductive PollEvent where
  | frame : List Nat → PollEvent
  | raiseRead : PollEvent
deriving DecidableEq

/-- How the `read_multiple_tags` poll loop ends: deadline expiry (the event
list is exhausted), the `break` when the error counter reaches the maximum,
or an exception escaping the loop body. -/
inductive ExitKind where
  | deadline
  | errorBreak
  | exn
deriving DecidableEq

/-- Outcome of one iteration of the `read_multiple_tags` loop body. -/
inductive StepOut where
  | next : SessState → StepOut
  | halt : SessState → ExitKind → StepOut
deriving DecidableEq

/-- The body of the `while` loop of `RFIDReader.read_multiple_tags`:
a frame starting `BB 02 22` is parsed, emitted if its EPC is unseen, and
resets `retries` to 0 in every case; a frame starting `BB 01 FF` is
reported and increments `retries`, breaking when it reaches `max_retries`;
anything else is ignored; an exception (from the read or from a truncated
parse) escapes the loop. -/
def sessStep (max_retries : Nat) (st : SessState) : PollEvent → StepOut
  | PollEvent.raiseRead => StepOut.halt st ExitKind.exn
  | PollEvent.frame f =>
    if f.take 3 = [0xBB, 0x02, 0x22] then
      match parse_tag_frame f with
      | PyResult.exn _ => StepOut.halt st ExitKind.exn
      | PyResult.ok none => StepOut.next { st with retries := 0 }
      | PyResult.ok (some tag) =>
        let st' :=
          if tag.epc ∈ st.epcSeen then st
          else { st with
                 epcSeen := tag.epc :: st.epcSeen
                 emitted := st.emitted ++ [tag] }
        StepOut.next { st' with retries := 0 }
    else if f.take 3 = [0xBB, 0x01, 0xFF] then
      match parse_error_frame f with
      | PyResult.exn _ => StepOut.halt st ExitKind.exn
      | PyResult.ok _ =>
        if st.retries + 1 ≥ max_retries then
          StepOut.halt { st with retries := st.retries + 1 } ExitKind.errorBreak
        else
          StepOut.next { st with retries := st.retries + 1 }
    else
      StepOut.next st

/-- The `while time.time() - start < duration` loop of `read_multiple_tags`:
the event list holds the reads that happen before the deadline; exhausting
it is the deadline expiring. -/
def pollLoop (max_retries : Nat) (st : SessState) :
    List PollEvent → SessState × ExitKind
  | [] => (st, ExitKind.deadline)
  | ev :: rest =>
    match sessStep max_retries st ev with
    | StepOut.next st' => pollLoop max_retries st' rest
    | StepOut.halt st' k => (st', k)

/-- The states observed at the top of each executed iteration of the
`read_multiple_tags` loop (same recursion as `pollLoop`). -/
def pollStates (max_retries : Nat) (st : SessState) :
    List PollEvent → List SessState
  | [] => []
  | ev :: rest =>
    st ::
      match sessStep max_retries st ev with
      | StepOut.next st' => pollStates max_retries st' rest
      | StepOut.halt _ _ => []

/-- Result of a `read_multiple_tags` call: final reader state, how the loop
ended, and how many times `stop_multi_inventory` was issued. -/
structure RmtResult where
  state : SessState
  exit : ExitKind
  stopCount : Nat
deriving DecidableEq

/-- `RFIDReader.read_multiple_tags`: runs the poll loop on the reader's
current `epc_seen`; `self.stop_multi_inventory()` is the statement after
the loop, so it runs on deadline expiry and on the error `break` but not
when an exception propagates out of the loop. -/
def read_multiple_tags (max_retries : Nat) (epcSeen0 : List String)
    (events : List PollEvent) : RmtResult :=
  let r := pollLoop max_retries ⟨epcSeen0, 0, []⟩ events
  ⟨r.1, r.2, if r.2 = ExitKind.exn then 0 else 1⟩

/-- `RFIDReader.reconnect_serial`: closes and reopens the port inside a
`try` whose `except Exception` clause only logs, so the method returns
normally whether the reopen succeeded or raised. -/
def reconnect_serial (reopen : PyResult Unit) : PyResult Unit :=
  match reopen with
  | PyResult.ok _ => PyResult.ok ()
  | PyResult.exn _ => PyResult.ok ()

/-- One poll iteration's input in `stream_tags`: a read buffer, a read
raising `serial.SerialException` (carrying the outcome of the reopen its
`reconnect_serial` call will attempt), a read raising some other
`Exception`, or `KeyboardInterrupt`. -/
inductive StreamEvent where
  | frame : List Nat → StreamEvent
  | serialExn : PyResult Unit → StreamEvent
  | otherExn : StreamEvent
  | interrupt : StreamEvent

/-- The `while True` loop of `RFIDReader.stream_tags`: tag frames are
deduplicated against the same reader-wide `epc_seen`; a
`serial.SerialException` triggers `reconnect_serial` (whose failure is
swallowed) and polling continues; any other `Exception` (including the
`IndexError` of a truncated parse) is caught and polling continues;
`KeyboardInterrupt` leaves the loop. -/
def streamLoop (st : SessState) : List StreamEvent → SessState
  | [] => st
  | ev :: rest =>
    match ev with
    | StreamEvent.interrupt => st
    | StreamEvent.serialExn reopen =>
      let _ := reconnect_serial reopen
      streamLoop st rest
    | StreamEvent.otherExn => streamLoop st rest
    | StreamEvent.frame f =>
      if f.take 3 = [0xBB, 0x02, 0x22] then
        match parse_tag_frame f with
        | PyResult.exn _ => streamLoop st rest
        | PyResult.ok none => streamLoop st rest
        | PyResult.ok (some tag) =>
          if tag.epc ∈ st.epcSeen then streamLoop st rest
          else
            streamLoop
              { st with
                epcSeen := tag.epc :: st.epcSeen
                emitted := st.emitted ++ [tag] } rest
      else if f.take 3 = [0xBB, 0x01, 0xFF] then
        let _ := parse_error_frame f
        streamLoop st rest
      else streamLoop st rest

/-- Result of a `stream_tags` call. -/
structure StreamResult where
  state : SessState
  stopCount : Nat
deriving DecidableEq

/-- `RFIDReader.stream_tags`: the loop runs under a `try ... finally` whose
`finally` issues `stop_multi_inventory` once on every exit path. -/
def stream_tags (epcSeen0 : List String) (events : List StreamEvent) :
    StreamResult :=
  ⟨streamLoop ⟨epcSeen0, 0, []⟩ events, 1⟩

/-- What one attempt of `send_command` observes from the transport:
`self.ser.read(128)` returns a (possibly empty) buffer, or the attempt
raises `serial.SerialException`. -/
inductive Attempt where
  | read : List Nat → Attempt
  | fault : Attempt
deriving DecidableEq

/-- Outcome of `RFIDReader.send_command`: a response buffer, the `None`
returned after all retries saw empty reads, or a propagated exception. -/
inductive SendResult where
  | response : List Nat → SendResult
  | noResponse : SendResult
  | raised : SendResult
deriving DecidableEq

/-- The `for attempt in range(retries)` loop of `send_command`, from
attempt number `attempt` with `writes` writes already performed: each
attempt writes the command, then a non-empty read is returned immediately,
an empty read backs off and retries, and a `serial.SerialException`
reconnects and retries unless it is the final attempt, in which case it
propagates. Returns the outcome and the total number of write attempts. -/
def sendAux (tr : Nat → Attempt) (retries : Nat) (attempt writes : Nat) :
    SendResult × Nat :=
  if _h : attempt < retries then
    match tr attempt with
    | Attempt.read r =>
      if r ≠ [] then (SendResult.response r, writes + 1)
      else sendAux tr retries (attempt + 1) (writes + 1)
    | Attempt.fault =>
      if attempt < retries - 1 then sendAux tr retries (attempt + 1) (writes + 1)
      else (SendResult.raised, writes + 1)
  else
    (SendResult.noResponse, writes)
termination_by retries - attempt

/-- `RFIDReader.send_command(cmd, retries)` run against a transport whose
attempt number `i` behaves as `tr i`. -/
def send_command (tr : Nat → Attempt) (retries : Nat) : SendResult × Nat :=
  sendAux tr retries 0 0

/-- `RFIDReader.write_tag_memory(bank, offset, data, password)` up to the
point where the command frame reaches `send_command`: `count` is
`len(data) // 2`, the payload is
`[bank] + password + offset.to_bytes(2) + count.to_bytes(2) + data`, and
the only way to fail before sending is `int.to_bytes` raising
`OverflowError`; there is no odd-length check. Returns the frame handed to
`send_command` together with the word count. -/
def write_tag_memory (bank offset : Nat) (data : List Nat)
    (password : List Nat) : PyResult (List Nat × Nat) :=
  let count := data.length / 2
  if offset < 2 ^ 16 ∧ count < 2 ^ 16 then
    PyResult.ok
      (build 0x00 0x49
        ([bank] ++ password ++ [offset / 2 ^ 8, offset % 2 ^ 8] ++
          [count / 2 ^ 8, count % 2 ^ 8] ++ data), count)
  else
    PyResult.exn "OverflowError"

/-- The EPC hex string `parse_tag_frame` extracts: `frame[9:21].hex().upper()`. -/
def epcOf (f : List Nat) : String :=
  bytesHex ((f.drop 9).take 12)

/-- The record `parse_tag_frame` builds for a buffer that passes its marker
and length checks (same expressions as in `parse_tag_frame`). -/
def tagOf (f : List Nat) : TagRecord :=
  { epc := epcOf f
    rssi := -(256 - (f.getD 6 0 : Int))
    pc := bytesHex ((f.drop 7).take 2)
    crc := bytesHex ((f.drop 21).take 2) }

/-- A buffer that `parse_tag_frame` decodes without raising: tag marker and
at least 7 bytes. -/
def validTag (f : List Nat) : Prop :=
  f.take 3 = [0xBB, 0x02, 0x22] ∧ 6 < f.length

/-- A buffer that `parse_error_frame` decodes without raising: error marker
and at least 6 bytes. -/
def validErr (f : List Nat) : Prop :=
  f.take 3 = [0xBB, 0x01, 0xFF] ∧ 5 < f.length

/-- A poll event on which the `read_multiple_tags` loop body cannot raise:
the read succeeds and any marker-prefixed buffer is long enough to parse. -/
def evSafe : PollEvent → Prop
  | PollEvent.raiseRead => False
  | PollEvent.frame f =>
    (f.take 3 = [0xBB, 0x02, 0x22] → 6 < f.length) ∧
    (f.take 3 = [0xBB, 0x01, 0xFF] → 5 < f.length)

instance (f : List Nat) : Decidable (validTag f) := by
  unfold validTag
  infer_instance

instance (f : List Nat) : Decidable (validErr f) := by
  unfold validErr
  infer_instance

instance : DecidablePred evSafe := by
  intro ev
  cases ev with
  | frame f => exact instDecidableAnd
  | raiseRead => exact instDecidableFalse

/-- The tag-report buffer of the spec's decoding scenario, its checksum
byte filled in as `sum(frame[1:24]) mod 256 = 0x93`. -/
def tagFrameC3 : List Nat :=
  [0xBB, 0x02, 0x22, 0x00, 0x00, 0x00, 0x80, 0x11, 0x22, 0xE2, 0x00, 0x11,
   0x22, 0x33, 0x44, 0x55, 0x66, 0x77, 0x88, 0x99, 0xAA, 0xBB, 0xAB, 0xCD,
   0x93, 0x7E]

/-- A second tag-report buffer, identical except for the first EPC byte
(`0xE3`), so its EPC differs from `tagFrameC3`'s. -/
def tagFrameB : List Nat :=
  [0xBB, 0x02, 0x22, 0x00, 0x00, 0x00, 0x80, 0x11, 0x22, 0xE3, 0x00, 0x11,
   0x22, 0x33, 0x44, 0x55, 0x66, 0x77, 0x88, 0x99, 0xAA, 0xBB, 0xAB, 0xCD,
   0x94, 0x7E]

/-- The spec's error-frame scenario `BB 01 FF 00 00 05 <checksum> 7E`
(checksum `0x05`). -/
def errFrameA : List Nat :=
  [0xBB, 0x01, 0xFF, 0x00, 0x00, 0x05, 0x05, 0x7E]

/-- A frame produced by `FrameBuilder.build` that carries the tag-report
marker `BB 02 22`, used to probe single-byte corruption. -/
def builtTagFrame : List Nat :=
  build 0x02 0x22
    [0x00, 0x80, 0x11, 0x22, 0xE2, 0x00, 0x11, 0x22, 0x33, 0x44, 0x55,
     0x66, 0x77, 0x88, 0x99, 0xAA, 0xBB, 0xAB, 0xCD]

/-- Transport that always returns an empty read. -/
def trEmpty : Nat → Attempt := fun _ => Attempt.read []

/-- Transport that returns an empty read on attempt 0 and a non-empty
(not-yet-validated) buffer on attempt 1. -/
def trSecond : Nat → Attempt := fun i =>
  if i = 1 then Attempt.read [0xBB] else Attempt.read []

section Lemmas

/-- Taking fewer elements than the mutated index leaves a `set` invisible. -/
theorem take_set_of_le (l : List Nat) (i b n : Nat) (h : n ≤ i) :
    (l.set i b).take n = l.take n := by
  induction l generalizing i n with
  | nil => simp
  | cons a t ih =>
    cases n with
    | zero => simp
    | succ n =>
      cases i with
      | zero => exact absurd h (by omega)
      | succ i => simp [ih i n (by omega)]

/-- `parse_tag_frame` on a marker-correct, long-enough buffer yields
exactly `tagOf`. -/
theorem parse_tag_frame_valid (f : List Nat) (h : validTag f) :
    parse_tag_frame f = PyResult.ok (some (tagOf f)) := by
  obtain ⟨hm, hl⟩ := h
  simp [parse_tag_frame, hm, hl, tagOf, epcOf]

/-- `parse_error_frame` on a marker-correct, long-enough buffer yields the
code at offset 5. -/
theorem parse_error_frame_valid (f : List Nat) (h : validErr f) :
    parse_error_frame f = PyResult.ok (some (f.getD 5 0)) := by
  obtain ⟨hm, hl⟩ := h
  have hne : f ≠ [] := by
    intro hnil
    rw [hnil] at hm
    simp at hm
  simp [parse_error_frame, hm, hl, hne]

/-- The explicit wire layout of `build`'s output. -/
theorem build_eq (t c : Nat) (p : List Nat) :
    build t c p =
      0xBB :: t :: c :: p.length / 2 ^ 8 :: p.length % 2 ^ 8 ::
        (p ++ [(t + c + p.length / 2 ^ 8 + p.length % 2 ^ 8 + p.sum) % 2 ^ 8,
               0x7E]) := by
  simp only [build, List.drop, List.cons_append, List.nil_append,
    List.sum_cons, List.sum_append]
  simp [Nat.add_assoc]

/-- The generic decoder inverts `build`. -/
theorem decode_build (t c : Nat) (p : List Nat) :
    decodeGenericFrame (build t c p) = some (t, c, p) := by
  rw [build_eq]
  show decodeGenericFrame (_ :: _ :: _ :: _ :: _ :: _) = _
  rw [decodeGenericFrame]
  have hlen : p.length / 2 ^ 8 * 2 ^ 8 + p.length % 2 ^ 8 = p.length := by
    omega
  rw [if_pos]
  · rw [hlen]
    simp only [List.take_left, List.drop_left, List.drop_append]
    simp
  · constructor
    · rfl
    · rw [hlen]
      simp

@[simp]
theorem tagOf_epc (f : List Nat) : (tagOf f).epc = epcOf f := rfl

/-- A tag-marker frame whose EPC is already seen: the loop body only resets
the retry counter. -/
theorem sessStep_tag_seen (M : Nat) (st : SessState) (f : List Nat)
    (hv : validTag f) (hmem : epcOf f ∈ st.epcSeen) :
    sessStep M st (PollEvent.frame f) = StepOut.next { st with retries := 0 } := by
  simp [sessStep, hv.1, parse_tag_frame_valid f hv, hmem]

/-- A tag-marker frame with an unseen EPC: the loop body records the EPC,
emits the record, and resets the retry counter. -/
theorem sessStep_tag_new (M : Nat) (st : SessState) (f : List Nat)
    (hv : validTag f) (hmem : epcOf f ∉ st.epcSeen) :
    sessStep M st (PollEvent.frame f) =
      StepOut.next
        ⟨epcOf f :: st.epcSeen, 0, st.emitted ++ [tagOf f]⟩ := by
  simp [sessStep, hv.1, parse_tag_frame_valid f hv, hmem]

/-- An error-marker frame: the loop body increments the retry counter and
breaks when it reaches the maximum. -/
theorem sessStep_err (M : Nat) (st : SessState) (f : List Nat)
    (hv : validErr f) :
    sessStep M st (PollEvent.frame f) =
      if M ≤ st.retries + 1 then
        StepOut.halt { st with retries := st.retries + 1 } ExitKind.errorBreak
      else
        StepOut.next { st with retries := st.retries + 1 } := by
  have hne : f.take 3 ≠ [0xBB, 0x02, 0x22] := by
    intro h
    have := hv.1
    rw [h] at this
    simp at this
  simp [sessStep, hne, hv.1, parse_error_frame_valid f hv, ge_iff_le]

/-- Replaying an already-seen tag frame any number of times changes neither
the seen set nor the emissions, and the loop still runs to its deadline. -/
theorem pollLoop_seen (M : Nat) (f : List Nat) (hv : validTag f) (n : Nat) :
    ∀ st : SessState, epcOf f ∈ st.epcSeen →
      (pollLoop M st (List.replicate n (PollEvent.frame f))).1.epcSeen =
          st.epcSeen
      ∧ (pollLoop M st (List.replicate n (PollEvent.frame f))).1.emitted =
          st.emitted
      ∧ (pollLoop M st (List.replicate n (PollEvent.frame f))).2 =
          ExitKind.deadline := by
  induction n with
  | zero =>
    intro st _
    simp [pollLoop]
  | succ n ih =>
    intro st hmem
    rw [List.replicate_succ]
    simp only [pollLoop, sessStep_tag_seen M st f hv hmem]
    exact ih { st with retries := 0 } hmem

/-- Feeding frames whose EPCs are pairwise distinct and all fresh emits one
record per frame and pushes the EPCs onto the seen set. -/
theorem pollLoop_fresh (M : Nat) (fs : List (List Nat)) :
    ∀ st : SessState, (∀ f ∈ fs, validTag f) → (fs.map epcOf).Nodup →
      (∀ f ∈ fs, epcOf f ∉ st.epcSeen) →
      (pollLoop M st (fs.map PollEvent.frame)).1.emitted.length =
          st.emitted.length + fs.length
      ∧ (pollLoop M st (fs.map PollEvent.frame)).1.epcSeen =
          (fs.map epcOf).reverse ++ st.epcSeen
      ∧ (pollLoop M st (fs.map PollEvent.frame)).2 = ExitKind.deadline := by
  induction fs with
  | nil =>
    intro st _ _ _
    simp [pollLoop]
  | cons f rest ih =>
    intro st hval hnodup hfresh
    have hv : validTag f := hval f (by simp)
    have hstep := sessStep_tag_new M st f hv (hfresh f (by simp))
    simp only [List.map_cons, pollLoop, hstep]
    have hnodup' : (rest.map epcOf).Nodup := by
      rw [List.map_cons, List.nodup_cons] at hnodup
      exact hnodup.2
    have hhead : epcOf f ∉ rest.map epcOf := by
      rw [List.map_cons, List.nodup_cons] at hnodup
      exact hnodup.1
    have hfresh' : ∀ g ∈ rest, epcOf g ∉
        (SessState.mk (epcOf f :: st.epcSeen) 0 (st.emitted ++ [tagOf f])).epcSeen := by
      intro g hg
      simp only [List.mem_cons]
      rintro (hgf | hgs)
      · exact hhead (hgf ▸ List.mem_map_of_mem epcOf hg)
      · exact hfresh g (by simp [hg]) hgs
    obtain ⟨h1, h2, h3⟩ :=
      ih ⟨epcOf f :: st.epcSeen, 0, st.emitted ++ [tagOf f]⟩
        (fun g hg => hval g (by simp [hg])) hnodup' hfresh'
    refine ⟨?_, ?_, h3⟩
    · rw [h1]
      simp
      omega
    · rw [h2]
      simp

end Lemmas

/-- C1: for every command-type byte, command-code byte and payload of at
most 65535 bytes, `FrameBuilder.build` returns exactly
`0xBB, commandType, commandCode, lenHi, lenLo, payload..., checksum, 0x7E`
with `(lenHi, lenLo)` the big-endian 2-byte length (so `lenHi` fits in a
byte) and `checksum = (commandType + commandCode + lenHi + lenLo +
sum payload) mod 256`; the generic decoder recovers the same fields from
`build`'s output and its checksum validates. -/
theorem c1_build_layout_roundtrip (t c : Nat) (p : List Nat)
    (_ht : t < 2 ^ 8) (_hc : c < 2 ^ 8) (_hp : ∀ b ∈ p, b < 2 ^ 8)
    (hlen : p.length ≤ 65535) :
    build t c p =
      [0xBB, t, c, p.length / 2 ^ 8, p.length % 2 ^ 8] ++ p ++
        [(t + c + p.length / 2 ^ 8 + p.length % 2 ^ 8 + p.sum) % 2 ^ 8, 0x7E]
    ∧ p.length / 2 ^ 8 < 2 ^ 8
    ∧ decodeGenericFrame (build t c p) = some (t, c, p) := by
  refine ⟨?_, by omega, decode_build t c p⟩
  rw [build_eq]
  simp

/-- Witness for C1 at `(0x00, 0x22, [0x02, 0x0A])`. -/
theorem c1_witness :
    decodeGenericFrame (build 0x00 0x22 [0x02, 0x0A]) =
      some (0x00, 0x22, [0x02, 0x0A]) :=
  (c1_build_layout_roundtrip 0x00 0x22 [0x02, 0x0A] (by decide) (by decide)
    (by decide) (by decide)).2.2

/-- C2 counterexample: mutating byte 6 of a built tag-marker frame — a
position strictly between the start byte (index 0) and the checksum byte
(index `length - 2`) — produces a different buffer that `parse_tag_frame`
still parses into a record instead of rejecting, because neither decoder
ever checks the checksum. -/
theorem c2_counterexample :
    builtTagFrame.set 6 0x81 ≠ builtTagFrame
    ∧ 0 < 6 ∧ (6 : Nat) < builtTagFrame.length - 2
    ∧ parse_tag_frame (builtTagFrame.set 6 0x81) =
        PyResult.ok (some { epc := "E200112233445566778899AA", rssi := -127,
                            pc := "1122", crc := "BBAB" }) := by
  decide

/-- C2 (amended): the decoders validate only the 3-byte marker, never the
checksum: a buffer long enough to parse is rejected by `parse_tag_frame`
(resp. `parse_error_frame`) exactly when its first three bytes differ from
`BB 02 22` (resp. `BB 01 FF`), and a single-byte mutation at any position
`≥ 3` (length, payload, checksum or end byte) of a parseable tag frame
still yields a parsed record. -/
theorem c2_marker_only_rejection :
    (∀ f : List Nat, 6 < f.length →
        (parse_tag_frame f = PyResult.ok none ↔
          f.take 3 ≠ [0xBB, 0x02, 0x22]))
    ∧ (∀ f : List Nat, 5 < f.length →
        (parse_error_frame f = PyResult.ok none ↔
          f.take 3 ≠ [0xBB, 0x01, 0xFF]))
    ∧ (∀ (f : List Nat) (i b : Nat), validTag f → 3 ≤ i →
        parse_tag_frame (f.set i b) =
          PyResult.ok (some (tagOf (f.set i b)))) := by
  refine ⟨?_, ?_, ?_⟩
  · intro f hl
    by_cases hm : f.take 3 = [0xBB, 0x02, 0x22]
    · rw [parse_tag_frame_valid f ⟨hm, hl⟩]
      simp [hm]
    · simp [parse_tag_frame, hm]
  · intro f hl
    by_cases hm : f.take 3 = [0xBB, 0x01, 0xFF]
    · rw [parse_error_frame_valid f ⟨hm, hl⟩]
      simp [hm]
    · simp [parse_error_frame, hm]
  · intro f i b hv hi
    have hm' : (f.set i b).take 3 = [0xBB, 0x02, 0x22] := by
      rw [take_set_of_le f i b 3 hi]
      exact hv.1
    have hl' : 6 < (f.set i b).length := by
      simpa using hv.2
    exact parse_tag_frame_valid _ ⟨hm', hl'⟩

/-- Witness for C2 (amended) at concrete frames: the scenario tag frame,
the scenario error frame, and a payload-byte mutation of the tag frame. -/
theorem c2_witness :
    (parse_tag_frame tagFrameC3 = PyResult.ok none ↔
      tagFrameC3.take 3 ≠ [0xBB, 0x02, 0x22])
    ∧ (parse_error_frame errFrameA = PyResult.ok none ↔
        errFrameA.take 3 ≠ [0xBB, 0x01, 0xFF])
    ∧ parse_tag_frame (tagFrameC3.set 10 0x55) =
        PyResult.ok (some (tagOf (tagFrameC3.set 10 0x55))) :=
  ⟨c2_marker_only_rejection.1 tagFrameC3 (by decide),
   c2_marker_only_rejection.2.1 errFrameA (by decide),
   c2_marker_only_rejection.2.2 tagFrameC3 10 0x55 (by decide) (by decide)⟩

/-- C3 counterexample: on the scenario buffer the code reads the EPC from
`frame[9:21]` and the CRC from `frame[21:23]`, giving EPC
`E200112233445566778899AA` (not the claimed 13-byte `E2...AABB`) and CRC
`BBAB` (not the claimed `ABCD`). -/
theorem c3_counterexample :
    parse_tag_frame tagFrameC3 =
      PyResult.ok (some { epc := "E200112233445566778899AA", rssi := -128,
                          pc := "1122", crc := "BBAB" })
    ∧ ("E200112233445566778899AA" : String) ≠ "E200112233445566778899AABB"
    ∧ ("BBAB" : String) ≠ "ABCD" := by
  decide

/-- C3 (amended): the scenario buffer decodes, via the fixed offsets
(RSSI at byte 6, PC at `[7:9]`, EPC at `[9:21]`, CRC at `[21:23]`), to a
record with EPC `E200112233445566778899AA`, RSSI `-128` (raw byte `0x80`
under `-(256 - raw)`), PC `1122` and CRC `BBAB`. -/
theorem c3_tag_frame_decode :
    parse_tag_frame tagFrameC3 = PyResult.ok (some (tagOf tagFrameC3))
    ∧ tagOf tagFrameC3 =
        { epc := "E200112233445566778899AA", rssi := -128,
          pc := "1122", crc := "BBAB" }
    ∧ tagFrameC3.getD 6 0 = 0x80
    ∧ -(256 - (0x80 : Int)) = -128 := by
  refine ⟨parse_tag_frame_valid _ (by decide), by decide, by decide, by decide⟩

/-- C9: a truncated buffer carrying the tag-frame marker but fewer than
7 bytes makes `parse_tag_frame` raise `IndexError` at `frame[6]`, and one
carrying the error-frame marker with fewer than 6 bytes makes
`parse_error_frame` raise `IndexError` at `frame[5]` — an out-of-range
access, not a discarded buffer; from 7 bytes on the tag parser instead
partially decodes. -/
theorem c9_truncated_buffer_raises :
    parse_tag_frame [0xBB, 0x02, 0x22] = PyResult.exn "IndexError"
    ∧ parse_tag_frame [0xBB, 0x02, 0x22, 0x00, 0x00, 0x00] =
        PyResult.exn "IndexError"
    ∧ parse_error_frame [0xBB, 0x01, 0xFF] = PyResult.exn "IndexError"
    ∧ parse_error_frame [0xBB, 0x01, 0xFF, 0x00, 0x00] =
        PyResult.exn "IndexError"
    ∧ parse_tag_frame [0xBB, 0x02, 0x22, 0x00, 0x00, 0x00, 0x80] =
        PyResult.ok (some { epc := "", rssi := -128, pc := "", crc := "" }) := by
  decide

/-- C10 counterexample: `write_tag_memory` with the odd-length data
`[0xAB]` does not fail with a protocol error; it builds and sends the
command frame containing the data byte, with word count
`len(data) // 2 = 0`. -/
theorem c10_counterexample :
    write_tag_memory 1 0 [0xAB] [0x00, 0x00, 0x00, 0x00] =
      PyResult.ok
        (build 0x00 0x49 [1, 0x00, 0x00, 0x00, 0x00, 0, 0, 0, 0, 0xAB], 0)
    ∧ ([0xAB] : List Nat).length % 2 = 1 := by
  decide

/-- C10 (amended): the word count sent by `write_tag_memory` is
`len(data) // 2` (floor division); data of odd length is not rejected —
whenever the offset and word count fit `int.to_bytes(2)`, the command
frame containing all data bytes and the floored count is built and handed
to the transport, with no `ProtocolError`. -/
theorem c10_word_count_floor (bank offset : Nat) (data password : List Nat)
    (ho : offset < 2 ^ 16) (hc : data.length / 2 < 2 ^ 16) :
    write_tag_memory bank offset data password =
      PyResult.ok
        (build 0x00 0x49
          ([bank] ++ password ++ [offset / 2 ^ 8, offset % 2 ^ 8] ++
            [data.length / 2 / 2 ^ 8, data.length / 2 % 2 ^ 8] ++ data),
         data.length / 2) := by
  simp only [write_tag_memory]
  rw [if_pos ⟨ho, hc⟩]

/-- Witness for C10 (amended) at odd-length data `[0xAB, 0xCD, 0xEF]`. -/
theorem c10_witness :
    write_tag_memory 1 2 [0xAB, 0xCD, 0xEF] [0x00, 0x00, 0x00, 0x00] =
      PyResult.ok
        (build 0x00 0x49
          ([1] ++ [0x00, 0x00, 0x00, 0x00] ++ [2 / 2 ^ 8, 2 % 2 ^ 8] ++
            [([0xAB, 0xCD, 0xEF] : List Nat).length / 2 / 2 ^ 8,
             ([0xAB, 0xCD, 0xEF] : List Nat).length / 2 % 2 ^ 8] ++
            [0xAB, 0xCD, 0xEF]),
         ([0xAB, 0xCD, 0xEF] : List Nat).length / 2) :=
  c10_word_count_floor 1 2 [0xAB, 0xCD, 0xEF] [0x00, 0x00, 0x00, 0x00]
    (by decide) (by decide)

/-- C4 counterexample: the dedup set `self.epc_seen` lives on the reader
instance and is never cleared between sessions, so a session emits the
scenario tag once, and a second `read_multiple_tags` run on the same
reader fed the very same frame emits nothing instead of re-emitting it. -/
theorem c4_counterexample :
    (read_multiple_tags 3 [] [PollEvent.frame tagFrameC3]).state.emitted.length
        = 1
    ∧ (read_multiple_tags 3
        (read_multiple_tags 3 [] [PollEvent.frame tagFrameC3]).state.epcSeen
        [PollEvent.frame tagFrameC3]).state.emitted = [] := by
  decide

/-- C4 (amended): within one session on a fresh reader the emission sink is
called exactly once per newly-seen EPC — the same valid tag frame fed
`n + 1` times emits exactly one record, and frames with pairwise-distinct
EPCs emit one record each — but the seen-EPC set is reader-scoped, not
session-scoped: a second session on the same reader emits nothing for an
EPC already emitted by an earlier session. -/
theorem c4_dedup_reader_scoped :
    (∀ (M : Nat) (f : List Nat) (n : Nat), validTag f →
        (read_multiple_tags M []
          (List.replicate (n + 1) (PollEvent.frame f))).state.emitted =
          [tagOf f])
    ∧ (∀ (M : Nat) (fs : List (List Nat)), (∀ f ∈ fs, validTag f) →
        (fs.map epcOf).Nodup →
        (read_multiple_tags M [] (fs.map PollEvent.frame)).state.emitted.length
          = fs.length)
    ∧ (∀ (M : Nat) (f : List Nat) (n m : Nat), validTag f →
        (read_multiple_tags M
          (read_multiple_tags M []
            (List.replicate (n + 1) (PollEvent.frame f))).state.epcSeen
          (List.replicate m (PollEvent.frame f))).state.emitted = []) := by
  have key : ∀ (M : Nat) (f : List Nat), validTag f → ∀ n : Nat,
      (pollLoop M ⟨[], 0, []⟩
        (List.replicate (n + 1) (PollEvent.frame f))).1.epcSeen = [epcOf f]
      ∧ (pollLoop M ⟨[], 0, []⟩
          (List.replicate (n + 1) (PollEvent.frame f))).1.emitted =
          [tagOf f] := by
    intro M f hv n
    have hstep := sessStep_tag_new M ⟨[], 0, []⟩ f hv (by simp)
    rw [List.replicate_succ]
    simp only [pollLoop, hstep]
    obtain ⟨h1, h2, _⟩ :=
      pollLoop_seen M f hv n ⟨[epcOf f], 0, [tagOf f]⟩ (by simp)
    exact ⟨by simpa using h1, by simpa using h2⟩
  refine ⟨?_, ?_, ?_⟩
  · intro M f n hv
    exact (key M f hv n).2
  · intro M fs hval hnodup
    obtain ⟨h1, _, _⟩ :=
      pollLoop_fresh M fs ⟨[], 0, []⟩ hval hnodup (by simp)
    simpa [read_multiple_tags] using h1
  · intro M f n m hv
    have hseen : (read_multiple_tags M []
        (List.replicate (n + 1) (PollEvent.frame f))).state.epcSeen =
        [epcOf f] := (key M f hv n).1
    rw [hseen]
    obtain ⟨_, h2, _⟩ :=
      pollLoop_seen M f hv m ⟨[epcOf f], 0, []⟩ (by simp)
    simpa [read_multiple_tags] using h2

/-- Witness for C4 (amended): the scenario frame twice emits one record, two
distinct-EPC frames emit two, and a repeat session on the same reader emits
none. -/
theorem c4_witness :
    (read_multiple_tags 3 []
        (List.replicate 2 (PollEvent.frame tagFrameC3))).state.emitted =
      [tagOf tagFrameC3]
    ∧ (read_multiple_tags 3 []
        ([tagFrameC3, tagFrameB].map PollEvent.frame)).state.emitted.length = 2
    ∧ (read_multiple_tags 3
        (read_multiple_tags 3 []
          (List.replicate 1 (PollEvent.frame tagFrameC3))).state.epcSeen
        (List.replicate 1 (PollEvent.frame tagFrameC3))).state.emitted = [] :=
  ⟨c4_dedup_reader_scoped.1 3 tagFrameC3 1 (by decide),
   c4_dedup_reader_scoped.2.1 3 [tagFrameC3, tagFrameB] (by decide) (by decide),
   c4_dedup_reader_scoped.2.2 3 tagFrameC3 0 1 (by decide)⟩

/-- If one loop iteration continues, the retry counter stays below the
configured maximum. -/
theorem sessStep_next_retries_lt (M : Nat) (st : SessState) (ev : PollEvent)
    (hM : 0 < M) (hr : st.retries < M) (st' : SessState)
    (h : sessStep M st ev = StepOut.next st') : st'.retries < M := by
  cases ev with
  | raiseRead => simp [sessStep] at h
  | frame f =>
    simp only [sessStep] at h
    split at h
    · split at h
      · simp at h
      · have := StepOut.next.inj h
        subst this
        simpa using hM
      · have := StepOut.next.inj h
        subst this
        simpa using hM
    · split at h
      · split at h
        · simp at h
        · split at h
          · simp at h
          · have := StepOut.next.inj h
            subst this
            simp only [SessState.mk.injEq]
            omega
      · have := StepOut.next.inj h
        subst this
        exact hr

/-- C5: with max-errors 3, three consecutive error frames break the poll
loop (`errorBreak`, not deadline expiry) and the stop command is issued
exactly once; moreover, while polling continues the consecutive-error
counter stays strictly below the configured maximum, and every valid tag
frame — newly seen or already seen — resets it to 0. -/
theorem c5_error_threshold :
    (∀ (seen : List String) (e1 e2 e3 : List Nat) (rest : List PollEvent),
        validErr e1 → validErr e2 → validErr e3 →
        (read_multiple_tags 3 seen
          (PollEvent.frame e1 :: PollEvent.frame e2 :: PollEvent.frame e3 ::
            rest)).exit = ExitKind.errorBreak
        ∧ (read_multiple_tags 3 seen
            (PollEvent.frame e1 :: PollEvent.frame e2 :: PollEvent.frame e3 ::
              rest)).stopCount = 1)
    ∧ (∀ (M : Nat) (st : SessState) (events : List PollEvent),
        0 < M → st.retries < M →
        ∀ s ∈ pollStates M st events, s.retries < M)
    ∧ (∀ (M : Nat) (st : SessState) (f : List Nat), validTag f →
        ∃ st', sessStep M st (PollEvent.frame f) = StepOut.next st'
          ∧ st'.retries = 0) := by
  refine ⟨?_, ?_, ?_⟩
  · intro seen e1 e2 e3 rest h1 h2 h3
    have step1 : sessStep 3 ⟨seen, 0, []⟩ (PollEvent.frame e1) =
        StepOut.next ⟨seen, 1, []⟩ := by
      rw [sessStep_err 3 ⟨seen, 0, []⟩ e1 h1]
      simp
    have step2 : sessStep 3 ⟨seen, 1, []⟩ (PollEvent.frame e2) =
        StepOut.next ⟨seen, 2, []⟩ := by
      rw [sessStep_err 3 ⟨seen, 1, []⟩ e2 h2]
      simp
    have step3 : sessStep 3 ⟨seen, 2, []⟩ (PollEvent.frame e3) =
        StepOut.halt ⟨seen, 3, []⟩ ExitKind.errorBreak := by
      rw [sessStep_err 3 ⟨seen, 2, []⟩ e3 h3]
      simp
    have hrun : pollLoop 3 ⟨seen, 0, []⟩
        (PollEvent.frame e1 :: PollEvent.frame e2 :: PollEvent.frame e3 ::
          rest) = (⟨seen, 3, []⟩, ExitKind.errorBreak) := by
      simp only [pollLoop, step1, step2, step3]
    constructor
    · simp [read_multiple_tags, hrun]
    · simp [read_multiple_tags, hrun]
  · intro M st events hM
    induction events generalizing st with
    | nil =>
      intro _ s hs
      simp [pollStates] at hs
    | cons ev rest ih =>
      intro hr s hs
      rw [pollStates] at hs
      simp only [List.mem_cons] at hs
      rcases hs with rfl | hs
      · exact hr
      · cases hstep : sessStep M st ev with
        | next st' =>
          rw [hstep] at hs
          exact ih st' (sessStep_next_retries_lt M st ev hM hr st' hstep) s hs
        | halt st'' k =>
          rw [hstep] at hs
          simp at hs
  · intro M st f hv
    by_cases hmem : epcOf f ∈ st.epcSeen
    · exact ⟨_, sessStep_tag_seen M st f hv hmem, rfl⟩
    · exact ⟨_, sessStep_tag_new M st f hv hmem, rfl⟩

/-- Witness for C5 at three copies of the scenario error frame, the empty
initial trace state, and the scenario tag frame. -/
theorem c5_witness :
    (read_multiple_tags 3 []
        [PollEvent.frame errFrameA, PollEvent.frame errFrameA,
         PollEvent.frame errFrameA]).exit = ExitKind.errorBreak
    ∧ (read_multiple_tags 3 []
        [PollEvent.frame errFrameA, PollEvent.frame errFrameA,
         PollEvent.frame errFrameA]).stopCount = 1
    ∧ (SessState.mk [] 0 []).retries < 3
    ∧ (∃ st', sessStep 3 ⟨[], 0, []⟩ (PollEvent.frame tagFrameC3) =
        StepOut.next st' ∧ st'.retries = 0) :=
  ⟨(c5_error_threshold.1 [] errFrameA errFrameA errFrameA [] (by decide)
      (by decide) (by decide)).1,
   (c5_error_threshold.1 [] errFrameA errFrameA errFrameA [] (by decide)
      (by decide) (by decide)).2,
   c5_error_threshold.2.1 3 ⟨[], 0, []⟩ [PollEvent.frame errFrameA]
      (by decide) (by decide) ⟨[], 0, []⟩ (by decide),
   c5_error_threshold.2.2 3 ⟨[], 0, []⟩ tagFrameC3 (by decide)⟩

/-- On a safe poll event the loop body can only halt through the
error-counter break, never through an exception. -/
theorem sessStep_safe_halt (M : Nat) (st : SessState) (ev : PollEvent)
    (hsafe : evSafe ev) (st' : SessState) (k : ExitKind)
    (h : sessStep M st ev = StepOut.halt st' k) : k = ExitKind.errorBreak := by
  cases ev with
  | raiseRead => exact absurd hsafe (by simp [evSafe])
  | frame f =>
    obtain ⟨ht, he⟩ := hsafe
    by_cases hm : f.take 3 = [0xBB, 0x02, 0x22]
    · by_cases hmem : epcOf f ∈ st.epcSeen
      · rw [sessStep_tag_seen M st f ⟨hm, ht hm⟩ hmem] at h
        simp at h
      · rw [sessStep_tag_new M st f ⟨hm, ht hm⟩ hmem] at h
        simp at h
    · by_cases hme : f.take 3 = [0xBB, 0x01, 0xFF]
      · rw [sessStep_err M st f ⟨hme, he hme⟩] at h
        split at h
        · obtain ⟨_, hk⟩ := StepOut.halt.inj h
          exact hk.symm
        · simp at h
      · have hnoise : sessStep M st (PollEvent.frame f) = StepOut.next st := by
          simp [sessStep, hm, hme]
        rw [hnoise] at h
        simp at h

/-- A poll loop fed only safe events never exits through an exception. -/
theorem pollLoop_safe (M : Nat) (events : List PollEvent) :
    ∀ st : SessState, (∀ ev ∈ events, evSafe ev) →
      (pollLoop M st events).2 ≠ ExitKind.exn := by
  induction events with
  | nil =>
    intro st _
    simp [pollLoop]
  | cons ev rest ih =>
    intro st hsafe
    cases hstep : sessStep M st ev with
    | next st' =>
      simp only [pollLoop, hstep]
      exact ih st' (fun e he => hsafe e (by simp [he]))
    | halt st' k =>
      simp only [pollLoop, hstep]
      have := sessStep_safe_halt M st ev (hsafe ev (by simp)) st' k hstep
      simp [this]

/-- When every attempt from `k` on reads empty, the retry loop performs the
remaining `r - k` writes and returns the no-response outcome. -/
theorem sendAux_all_empty (tr : Nat → Attempt) (r : Nat) :
    ∀ n k w : Nat, r - k = n →
      (∀ i, k ≤ i → i < r → tr i = Attempt.read []) →
      sendAux tr r k w = (SendResult.noResponse, w + n) := by
  intro n
  induction n with
  | zero =>
    intro k w hk _
    unfold sendAux
    rw [dif_neg (by omega)]
    simp
  | succ n ih =>
    intro k w hk htr
    unfold sendAux
    rw [dif_pos (by omega), htr k (Nat.le_refl k) (by omega)]
    simp only [ne_eq, not_true_eq_false, if_false]
    rw [ih (k + 1) (w + 1) (by omega) (fun i h1 h2 => htr i (by omega) h2)]
    simp [Prod.ext_iff]
    omega

/-- When attempts before `i` read empty and attempt `i` reads a non-empty
buffer, the retry loop returns that buffer after `i - k + 1` more writes. -/
theorem sendAux_first_resp (tr : Nat → Attempt) (r i : Nat) (resp : List Nat)
    (hi : i < r) (hresp : resp ≠ []) (htri : tr i = Attempt.read resp) :
    ∀ n k w : Nat, i - k = n → k ≤ i →
      (∀ j, k ≤ j → j < i → tr j = Attempt.read []) →
      sendAux tr r k w = (SendResult.response resp, w + n + 1) := by
  intro n
  induction n with
  | zero =>
    intro k w hk hki _
    have hik : k = i := by omega
    subst hik
    unfold sendAux
    rw [dif_pos (by omega), htri]
    simp [hresp]
  | succ n ih =>
    intro k w hk hki htr
    unfold sendAux
    rw [dif_pos (by omega), htr k (Nat.le_refl k) (by omega)]
    simp only [ne_eq, not_true_eq_false, if_false]
    rw [ih (k + 1) (w + 1) (by omega) (by omega)
      (fun j h1 h2 => htr j (by omega) h2)]
    simp [Prod.ext_iff]
    omega

/-- C6: with a transport whose reads are all empty and fault-free,
`send_command` with `retries = r ≥ 1` performs exactly `r` write attempts
and returns `None` (the no-response outcome) without raising; and on the
first attempt whose read is non-empty the buffer is returned immediately —
no further write attempts, no validation of the buffer. -/
theorem c6_retry_bound :
    (∀ (r : Nat) (tr : Nat → Attempt), 1 ≤ r →
        (∀ i, i < r → tr i = Attempt.read []) →
        send_command tr r = (SendResult.noResponse, r))
    ∧ (∀ (r i : Nat) (tr : Nat → Attempt) (resp : List Nat), i < r →
        (∀ j, j < i → tr j = Attempt.read []) →
        tr i = Attempt.read resp → resp ≠ [] →
        send_command tr r = (SendResult.response resp, i + 1)) := by
  constructor
  · intro r tr _ htr
    have := sendAux_all_empty tr r r 0 0 (by omega) (fun i _ h2 => htr i h2)
    simpa [send_command] using this
  · intro r i tr resp hi htr htri hresp
    have := sendAux_first_resp tr r i resp hi hresp htri i 0 0 (by omega)
      (by omega) (fun j _ h2 => htr j h2)
    simpa [send_command] using this

/-- Witness for C6: two attempts of always-empty reads give `None` after 2
writes; a transport answering `[0xBB]` on attempt 1 gets that buffer
returned after 2 writes. -/
theorem c6_witness :
    send_command trEmpty 2 = (SendResult.noResponse, 2)
    ∧ send_command trSecond 2 = (SendResult.response [0xBB], 2) :=
  ⟨c6_retry_bound.1 2 trEmpty (by decide) (fun i _ => rfl),
   c6_retry_bound.2 2 1 trSecond [0xBB] (by decide) (by decide) rfl
     (by decide)⟩

/-- C7 counterexample: `read_multiple_tags` places the stop command after
its loop with no `finally`, so an exception raised during a poll iteration
— a truncated tag frame crashing the parser, or a raising read — exits the
session without ever issuing `stop_multi_inventory`. -/
theorem c7_counterexample :
    (read_multiple_tags 3 [] [PollEvent.frame [0xBB, 0x02, 0x22]]).stopCount
        = 0
    ∧ (read_multiple_tags 3 [] [PollEvent.raiseRead]).stopCount = 0 := by
  decide

/-- C7 (amended): `stream_tags` issues the stop command exactly once on
every exit path (its loop runs inside `try ... finally`), while
`read_multiple_tags` issues it exactly once on the normal exits — deadline
expiry or the error-threshold break, i.e. whenever no exception escapes a
poll iteration — and not at all when one does. -/
theorem c7_stop_on_exit :
    (∀ (seen : List String) (events : List StreamEvent),
        (stream_tags seen events).stopCount = 1)
    ∧ (∀ (M : Nat) (seen : List String) (events : List PollEvent),
        (∀ ev ∈ events, evSafe ev) →
        (read_multiple_tags M seen events).stopCount = 1)
    ∧ (∀ (M : Nat) (seen : List String) (events : List PollEvent),
        ((read_multiple_tags M seen events).stopCount = 1 ↔
          (read_multiple_tags M seen events).exit ≠ ExitKind.exn)) := by
  refine ⟨fun _ _ => rfl, ?_, ?_⟩
  · intro M seen events hsafe
    have hne := pollLoop_safe M events ⟨seen, 0, []⟩ hsafe
    simp [read_multiple_tags, hne]
  · intro M seen events
    by_cases h : (pollLoop M ⟨seen, 0, []⟩ events).2 = ExitKind.exn <;>
      simp [read_multiple_tags, h]

/-- Witness for C7 (amended) at an empty stream, a one-tag-frame poll
session, and a raising poll session. -/
theorem c7_witness :
    (stream_tags [] []).stopCount = 1
    ∧ (read_multiple_tags 3 [] [PollEvent.frame tagFrameC3]).stopCount = 1
    ∧ ((read_multiple_tags 3 [] [PollEvent.raiseRead]).stopCount = 1 ↔
        (read_multiple_tags 3 [] [PollEvent.raiseRead]).exit ≠
          ExitKind.exn) :=
  ⟨c7_stop_on_exit.1 [] [],
   c7_stop_on_exit.2.1 3 [] [PollEvent.frame tagFrameC3] (by decide),
   c7_stop_on_exit.2.2 3 [] [PollEvent.raiseRead]⟩

/-- C8 counterexample: `reconnect_serial` swallows a failing reopen
(returning normally instead of reporting it), and a streaming session
whose reconnection failed keeps polling — it still emits the tag read
after the failed reconnection — instead of transitioning to Stopping. -/
theorem c8_counterexample :
    reconnect_serial (PyResult.exn "boom") = PyResult.ok ()
    ∧ (stream_tags []
        [StreamEvent.serialExn (PyResult.exn "boom"),
         StreamEvent.frame tagFrameC3]).state.emitted = [tagOf tagFrameC3] :=
  ⟨rfl, by decide⟩

/-- C8 (amended): a transport fault during a poll iteration triggers a
reconnection attempt and polling continues; but because `reconnect_serial`
catches every exception internally, a failed reconnection is not reported
to the caller, and the session continues polling with unchanged state —
for any reopen outcome — rather than transitioning to Stopping. -/
theorem c8_reconnect_swallowed :
    (∀ o : PyResult Unit, reconnect_serial o = PyResult.ok ())
    ∧ (∀ (st : SessState) (o : PyResult Unit) (rest : List StreamEvent),
        streamLoop st (StreamEvent.serialExn o :: rest) =
          streamLoop st rest) := by
  constructor
  · intro o
    cases o <;> rfl
  · intro st o rest
    rfl

end RFID
